import Mathlib

/-!
Verification development for the historical-imagery capture scripts.

The JavaScript sources are shallowly embedded:
* byte buffers become `List Nat` (the code only ever inspects lengths);
* JavaScript numbers arising from the unguarded division in the change
  detector are modelled by `JSNum`, which keeps the exceptional values
  `NaN` and `±Infinity` produced by division by zero, and otherwise an
  exact rational (the idealisation of binary floating point);
* strings become `String`/`List Char`, and the few regular expressions
  used for date recognition are implemented directly as leftmost-match
  scanners with the same backtracking behaviour;
* the scan loops become folds over explicit probe lists, with the browser
  and OCR collaborators supplying the probe data;
* thrown exceptions become `Except` values.
-/

/-- JavaScript number as produced by the change detector's division:
`NaN`, `+Infinity`, `-Infinity`, or a finite value (exact rational). -/
inductive JSNum where
  | nan : JSNum
  | inf : JSNum
  | ninf : JSNum
  | val : ℚ → JSNum
deriving DecidableEq

/-- JavaScript division `a / b`: `0/0 = NaN`, `a/0 = ±Infinity` for `a ≠ 0`,
otherwise the exact quotient. -/
def jsDiv (a b : ℚ) : JSNum :=
  if b = 0 then
    if a = 0 then JSNum.nan
    else if 0 < a then JSNum.inf
    else JSNum.ninf
  else JSNum.val (a / b)

/-- Multiplication by the constant 100 (`NaN*100 = NaN`, `±Inf*100 = ±Inf`). -/
def JSNum.mul100 : JSNum → JSNum
  | JSNum.nan => JSNum.nan
  | JSNum.inf => JSNum.inf
  | JSNum.ninf => JSNum.ninf
  | JSNum.val q => JSNum.val (q * 100)

/-- JavaScript comparison `x > t` for a finite threshold `t`:
`NaN > t` is `false`, `Infinity > t` is `true`, `-Infinity > t` is `false`. -/
def JSNum.gtQ : JSNum → ℚ → Bool
  | JSNum.nan, _ => false
  | JSNum.inf, _ => true
  | JSNum.ninf, _ => false
  | JSNum.val q, t => decide (q > t)

/-- Result record of `compareScreenshots` (the fields of the returned object). -/
structure CompareResult where
  percentDiff : JSNum
  hasSignificantChange : Bool
deriving DecidableEq

/-- `compareScreenshots(before, after)` from the enhanced capture script
(verbatim again in the simplified standalone variant):
`sizeDiff = Math.abs(before.length - after.length)`,
`percentDiff = (sizeDiff / before.length) * 100`,
significant iff `percentDiff > 0.5`. -/
def compareScreenshots (before after : List Nat) : CompareResult :=
  let sizeDiff : ℚ := |((before.length : ℚ)) - ((after.length : ℚ))|
  let percentDiff : JSNum := (jsDiv sizeDiff (before.length : ℚ)).mul100
  { percentDiff := percentDiff, hasSignificantChange := percentDiff.gtQ (1 / 2) }

/-- `hasSignificantChanges(before, after)` from the further-revised variant:
same size comparison but threshold 1 percent, returning the Boolean directly. -/
def hasSignificantChanges (before after : List Nat) : Bool :=
  let sizeDiff : ℚ := |((before.length : ℚ)) - ((after.length : ℚ))|
  ((jsDiv sizeDiff (before.length : ℚ)).mul100).gtQ 1

/-- `estimateYearFromPosition(x)`: linear interpolation over the fixed
calibration `timelineStartX = 400`, `timelineEndX = 1600`,
`startYear = 2002`, `endYear = 2024`, with `Math.round` modelled by
`round` (both compute `⌊x + 1/2⌋`). -/
def estimateYearFromPosition (x : ℤ) : ℤ :=
  let timelineStartX : ℚ := 400
  let timelineEndX : ℚ := 1600
  let startYear : ℤ := 2002
  let endYear : ℤ := 2024
  let yearSpan : ℚ := (endYear : ℚ) - (startYear : ℚ)
  let pixelSpan : ℚ := timelineEndX - timelineStartX
  let pixelsPerYear : ℚ := pixelSpan / yearSpan
  let yearOffset : ℤ := round (((x : ℚ) - timelineStartX) / pixelsPerYear)
  startYear + yearOffset

/-! ### Regular-expression scanners for date recognition

Each JavaScript regex used by `extractDateFromImage` and
`formatDateForFilename` is implemented as a leftmost-match scanner over
`List Char`, with the same greedy/backtracking behaviour.  Character
classes that are disjoint from their continuation (`[\s~]`, `[,\s]`,
`[a-z]` followed by `\s`) are consumed greedily without backtracking,
which is equivalent for these patterns; the only place where the engine
genuinely backtracks is `\d{1,2}`, represented by the candidate list
`digits12` tried longest-first. -/

/-- ASCII letter, i.e. `[a-z]` under the `i` flag. -/
def asciiLetter (c : Char) : Bool :=
  ('a' ≤ c && c ≤ 'z') || ('A' ≤ c && c ≤ 'Z')

/-- JavaScript `\s` restricted to the ASCII whitespace that can occur in
OCR output. -/
def isSpaceJS (c : Char) : Bool :=
  c = ' ' || c = '\t' || c = '\n' || c = '\r'

/-- The character class `[,\s]` (and `[\s,]`). -/
def spaceOrComma (c : Char) : Bool :=
  isSpaceJS c || c = ','

/-- The character class `[\s~]` of the `older` pattern. -/
def olderSep (c : Char) : Bool :=
  isSpaceJS c || c = '~'

/-- Greedy `\d{1,2}` with backtracking: candidate `(group, rest)` splits in
the order the regex engine tries them (two digits first, then one). -/
def digits12 : List Char → List (List Char × List Char)
  | [] => []
  | [c1] => if c1.isDigit then [([c1], [])] else []
  | c1 :: c2 :: rest =>
    if c1.isDigit then
      if c2.isDigit then [([c1, c2], rest), ([c1], c2 :: rest)]
      else [([c1], c2 :: rest)]
    else []

/-- `\d{4}`: exactly four digits at this position (continuation ignored). -/
def digits4 : List Char → Option (List Char)
  | c1 :: c2 :: c3 :: c4 :: _ =>
    if c1.isDigit && c2.isDigit && c3.isDigit && c4.isDigit then
      some [c1, c2, c3, c4]
    else none
  | _ => none

/-- Match `(\d{1,2})\/(\d{1,2})\/(\d{4})` anchored at this position,
returning the three groups. -/
def matchSlashAt (s : List Char) : Option (List Char × List Char × List Char) :=
  (digits12 s).findSome? fun md =>
    match md.2 with
    | '/' :: r2 =>
      (digits12 r2).findSome? fun dd =>
        match dd.2 with
        | '/' :: r4 =>
          match digits4 r4 with
          | some y => some (md.1, dd.1, y)
          | none => none
        | _ => none
    | _ => none

/-- Leftmost match of the bare date pattern `(\d{1,2})\/(\d{1,2})\/(\d{4})`. -/
def searchSlash : List Char → Option (List Char × List Char × List Char)
  | [] => none
  | c :: rest =>
    match matchSlashAt (c :: rest) with
    | some r => some r
    | none => searchSlash rest

/-- Match `older[\s~]+(\d{1,2}\/\d{1,2}\/\d{4})` anchored at this position,
returning the date group. -/
def matchOlderAt : List Char → Option (List Char × List Char × List Char)
  | 'o' :: 'l' :: 'd' :: 'e' :: 'r' :: r =>
    match r with
    | c :: r2 => if olderSep c then matchSlashAt (r2.dropWhile olderSep) else none
    | [] => none
  | _ => none

/-- Leftmost match of the `older` pattern. -/
def searchOlder : List Char → Option (List Char × List Char × List Char)
  | [] => none
  | c :: rest =>
    match matchOlderAt (c :: rest) with
    | some r => some r
    | none => searchOlder rest

/-- The alternation `(Jan|Feb|Mar|Apr|May|Jun|Jul|Aug|Sep|Oct|Nov|Dec)`
under the `i` flag, as a test on three characters. -/
def monthAbbrev3 (c1 c2 c3 : Char) : Bool :=
  let l := [c1.toLower, c2.toLower, c3.toLower]
  l = ['j', 'a', 'n'] || l = ['f', 'e', 'b'] || l = ['m', 'a', 'r'] ||
  l = ['a', 'p', 'r'] || l = ['m', 'a', 'y'] || l = ['j', 'u', 'n'] ||
  l = ['j', 'u', 'l'] || l = ['a', 'u', 'g'] || l = ['s', 'e', 'p'] ||
  l = ['o', 'c', 't'] || l = ['n', 'o', 'v'] || l = ['d', 'e', 'c']

/-- Match `(Jan|...|Dec)[\s,]+\d{1,2}[\s,]+\d{4}` (flag `i`) anchored at this
position, returning the whole matched substring (`match[0]`), as used by
`extractDateFromImage`. -/
def matchMonthPatAt : List Char → Option (List Char)
  | c1 :: c2 :: c3 :: r =>
    if monthAbbrev3 c1 c2 c3 then
      match r with
      | k1 :: r2 =>
        if spaceOrComma k1 then
          let sep1 := k1 :: r2.takeWhile spaceOrComma
          let r3 := r2.dropWhile spaceOrComma
          (digits12 r3).findSome? fun dd =>
            match dd.2 with
            | k2 :: r5 =>
              if spaceOrComma k2 then
                let sep2 := k2 :: r5.takeWhile spaceOrComma
                match digits4 (r5.dropWhile spaceOrComma) with
                | some y => some ([c1, c2, c3] ++ sep1 ++ dd.1 ++ sep2 ++ y)
                | none => none
              else none
            | [] => none
        else none
      | [] => none
    else none
  | _ => none

/-- Leftmost match of the month-name pattern of `extractDateFromImage`. -/
def searchMonthPat : List Char → Option (List Char)
  | [] => none
  | c :: rest =>
    match matchMonthPatAt (c :: rest) with
    | some r => some r
    | none => searchMonthPat rest

/-- Match `([a-z]{3})[a-z]*\s+(\d{1,2})[,\s]+(\d{4})` (flag `i`) anchored at
this position, returning the three groups, as used by
`formatDateForFilename`. -/
def matchMonthFmtAt : List Char → Option (List Char × List Char × List Char)
  | c1 :: c2 :: c3 :: r =>
    if asciiLetter c1 && asciiLetter c2 && asciiLetter c3 then
      match r.dropWhile asciiLetter with
      | w :: r2 =>
        if isSpaceJS w then
          (digits12 (r2.dropWhile isSpaceJS)).findSome? fun dd =>
            match dd.2 with
            | k :: r5 =>
              if spaceOrComma k then
                match digits4 (r5.dropWhile spaceOrComma) with
                | some y => some ([c1, c2, c3], dd.1, y)
                | none => none
              else none
            | [] => none
        else none
      | [] => none
    else none
  | _ => none

/-- Leftmost match of the month-name pattern of `formatDateForFilename`. -/
def searchMonthFmt : List Char → Option (List Char × List Char × List Char)
  | [] => none
  | c :: rest =>
    match matchMonthFmtAt (c :: rest) with
    | some r => some r
    | none => searchMonthFmt rest

/-- The `monthNames` lookup table of `formatDateForFilename` (keys are the
lowercased three-letter group). -/
def monthNum : List Char → Option (List Char)
  | ['j', 'a', 'n'] => some ['0', '1']
  | ['f', 'e', 'b'] => some ['0', '2']
  | ['m', 'a', 'r'] => some ['0', '3']
  | ['a', 'p', 'r'] => some ['0', '4']
  | ['m', 'a', 'y'] => some ['0', '5']
  | ['j', 'u', 'n'] => some ['0', '6']
  | ['j', 'u', 'l'] => some ['0', '7']
  | ['a', 'u', 'g'] => some ['0', '8']
  | ['s', 'e', 'p'] => some ['0', '9']
  | ['o', 'c', 't'] => some ['1', '0']
  | ['n', 'o', 'v'] => some ['1', '1']
  | ['d', 'e', 'c'] => some ['1', '2']
  | _ => none

/-- JavaScript `padStart(2, '0')`. -/
def padStart2 (s : List Char) : List Char :=
  List.replicate (2 - s.length) '0' ++ s

/-- First cleanup pass of the fall-through branch:
`replace(/[\/\s,:]/g, '-')`. -/
def cleanupChar (c : Char) : Char :=
  if c = '/' || isSpaceJS c || c = ',' || c = ':' then '-' else c

/-- Second cleanup pass: keep only `[a-zA-Z0-9-_]`. -/
def keepChar (c : Char) : Bool :=
  c.isDigit || asciiLetter c || c = '-' || c = '_'

/-- Body of `formatDateForFilename` on the character list: try the
`MM/DD/YYYY` regex, then the month-name regex (with the `monthNames`
lookup, where a missing key interpolates as the string `undefined`),
else clean the string up for filename use. -/
def formatDateCore (l : List Char) : List Char :=
  match searchSlash l with
  | some (m, d, y) => y ++ '-' :: (padStart2 m ++ '-' :: padStart2 d)
  | none =>
    match searchMonthFmt l with
    | some (mon, d, y) =>
      y ++ '-' :: ((monthNum (mon.map Char.toLower)).getD ("undefined".data) ++ '-' :: padStart2 d)
    | none => (l.map cleanupChar).filter keepChar

/-- `formatDateForFilename(dateString)`: the falsy guard returns
`unknown_date` for the empty string, otherwise the core conversion. -/
def formatDateForFilename (dateString : String) : String :=
  if dateString = "" then "unknown_date"
  else String.mk (formatDateCore dateString.data)

/-- `extractDateFromImage`, date-pattern part: given the OCR-recognised
text, try the `older` pattern, the bare `MM/DD/YYYY` pattern, then the
month-name pattern; the result is `ocrResult.date` (`none` models `null`,
i.e. no parseable date; engine errors are also caught and yield `null`). -/
def extractDateFromText (text : String) : Option String :=
  match searchOlder text.data with
  | some (m, d, y) => some (String.mk (m ++ '/' :: (d ++ '/' :: y)))
  | none =>
    match searchSlash text.data with
    | some (m, d, y) => some (String.mk (m ++ '/' :: (d ++ '/' :: y)))
    | none =>
      match searchMonthPat text.data with
      | some s => some (String.mk s)
      | none => none

/-- The label selection of the scan loop:
`ocrResult.date ? formatDateForFilename(ocrResult.date) : `est_${estimatedYear}``
(the empty string is falsy in JavaScript, hence the extra guard). -/
def resolveLabel (ocrDate : Option String) (estimatedYear : ℤ) : String :=
  match ocrDate with
  | some d => if d = "" then "est_" ++ toString estimatedYear else formatDateForFilename d
  | none => "est_" ++ toString estimatedYear

/-! ### The timeline scan of the enhanced capture script -/

/-- Data one probe (click + screenshot + OCR) delivers to the scan loop. -/
structure Probe where
  frameData : List Nat
  ocrDate : Option String
  ocrRaw : Option String
deriving DecidableEq

/-- One entry of the `capturedImages` array; `frameData` is the content of
the unique-image file copied from the position screenshot. -/
structure Captured where
  position : Nat
  pointX : ℤ
  estimatedYear : ℤ
  detectedDateText : Option String
  formattedDate : String
  frameData : List Nat
  percentDiff : JSNum
deriving DecidableEq

/-- Mutable state of the scan loop: the rolling `baselineData` buffer and
the `capturedImages` array. -/
structure ScanState where
  baselineData : List Nat
  capturedImages : List Captured
deriving DecidableEq

/-- One iteration of the timeline loop of the enhanced script
(`numPoints = 30`, scan window `1100..1600`): compute the click position
and estimated year, resolve the date label, compare against the rolling
baseline, and on a significant change append to `capturedImages` and
replace the baseline with the current frame. -/
def scanStep (i : Nat) (pr : Probe) (s : ScanState) : ScanState :=
  let timelineStart : ℚ := 1100
  let timelineEndX : ℚ := 1600
  let numPoints : ℚ := 30
  let intervalWidth : ℚ := (timelineEndX - timelineStart) / numPoints
  let pointX : ℤ := round (timelineStart + (i : ℚ) * intervalWidth)
  let estimatedYear : ℤ := estimateYearFromPosition pointX
  let formattedDate : String := resolveLabel pr.ocrDate estimatedYear
  let comparison := compareScreenshots s.baselineData pr.frameData
  if comparison.hasSignificantChange then
    { baselineData := pr.frameData
      capturedImages := s.capturedImages ++ [{
        position := i + 1
        pointX := pointX
        estimatedYear := estimatedYear
        detectedDateText := pr.ocrRaw
        formattedDate := formattedDate
        frameData := pr.frameData
        percentDiff := comparison.percentDiff }] }
  else s

/-- The whole scan loop: fold `scanStep` over the indexed probe list,
starting from the baseline screenshot taken before the first probe. -/
def runScan (s : ScanState) (probes : List Probe) : ScanState :=
  (probes.enum).foldl (fun st ip => scanStep ip.1 ip.2 st) s

/-- Result of a scan in which probes may throw: either the loop completed,
or a probe threw and control jumped to the session-level catch handler
with the state at that moment. -/
inductive ScanOutcome where
  | completed : ScanState → ScanOutcome
  | aborted : ScanState → String → ScanOutcome
deriving DecidableEq

/-- The scan loop with fallible probes: the first probe that throws ends
the loop (there is no per-iteration catch in the source), carrying the
error to the session-level handler; later positions are never sampled. -/
def runScanE (s : ScanState) : List (Nat × Except String Probe) → ScanOutcome
  | [] => ScanOutcome.completed s
  | (_, Except.error e) :: _ => ScanOutcome.aborted s e
  | (i, Except.ok pr) :: rest => runScanE (scanStep i pr s) rest

/-- The scan state carried by either outcome. -/
def ScanOutcome.state : ScanOutcome → ScanState
  | ScanOutcome.completed s => s
  | ScanOutcome.aborted s _ => s

/-- Whether the scan was aborted by a thrown probe error. -/
def ScanOutcome.isAborted : ScanOutcome → Bool
  | ScanOutcome.completed _ => false
  | ScanOutcome.aborted _ _ => true

/-- The `actualYearRange` metadata field:
first and last `formattedDate` of the `capturedImages` array (array order,
i.e. scan order), or the fixed fallback text when nothing was captured. -/
def actualYearRangeOf (captured : List Captured) : String :=
  match captured with
  | [] => "No images captured"
  | c :: cs => c.formattedDate ++ " to " ++ (cs.getLastD c).formattedDate

/-- The fields of `metadata.json` that the claims are about. -/
structure SessionMetadata where
  capturedImages : Nat
  actualYearRange : String
deriving DecidableEq

/-- Metadata computed after the scan loop completes. -/
def metadataOf (s : ScanState) : SessionMetadata :=
  { capturedImages := s.capturedImages.length
    actualYearRange := actualYearRangeOf s.capturedImages }

/-- Session metadata as actually produced: the enhanced script writes
`metadata.json` only after the loop finishes; when a probe throws, the
catch handler only logs and screenshots, so no metadata is produced. -/
def sessionMetadata : ScanOutcome → Option SessionMetadata
  | ScanOutcome.completed s => some (metadataOf s)
  | ScanOutcome.aborted _ _ => none

/-- The gallery of the enhanced report: one card per captured image, in
array order, labelled by its `formattedDate`. -/
def galleryEntries (captured : List Captured) : List String :=
  captured.map (fun img => img.formattedDate)

/-- The rolling-baseline invariant value: the frame of the most recently
captured unique image, or the initial baseline when none was captured. -/
def lastUniqueBaseline (b0 : List Nat) (cs : List Captured) : List Nat :=
  match cs.getLast? with
  | none => b0
  | some c => c.frameData

/-! ### Mode activation of the refined standalone variant -/

/-- `MAX_RETRIES` of the refined standalone variant. -/
def MAX_RETRIES : Nat := 3

/-- The message of the error thrown when activation fails. -/
def activationErrorMessage : String :=
  "Failed to activate historical imagery mode after multiple attempts"

/-- The `while (!historyModeActivated && retryCount < MAX_RETRIES)` loop:
`visible k` is whether the `Deactivate Historical Imagery` button is found
on attempt `k`; the fuel is `MAX_RETRIES - retryCount`. -/
def activationLoop (visible : Nat → Bool) : Nat → Nat → Bool
  | _, 0 => false
  | retryCount, Nat.succ fuel =>
    if visible retryCount then true else activationLoop visible (retryCount + 1) fuel

/-- Whether historical-imagery mode was activated within `MAX_RETRIES`
attempts. -/
def historyModeActivated (visible : Nat → Bool) : Bool :=
  activationLoop visible 0 MAX_RETRIES

/-- `capturedDates.set(date, info)`: JavaScript `Map` update, keeping the
original insertion position for an existing key. -/
def insertDate (m : List (String × Nat)) (d : String) (pos : Nat) : List (String × Nat) :=
  if m.any (fun kv => kv.1 = d) then
    m.map (fun kv => if kv.1 = d then (kv.1, pos) else kv)
  else m ++ [(d, pos)]

/-- The blue-dot scan of the refined variant, reduced to its date
bookkeeping: each probe may yield an OCR date, recorded in the
`capturedDates` map keyed by date text with 1-based position. -/
def refinedScanRun (probeDates : List (Option String)) : List (String × Nat) :=
  (probeDates.enum).foldl
    (fun m ip =>
      match ip.2 with
      | some d => insertDate m d (ip.1 + 1)
      | none => m)
    []

/-- The body of `captureHistoricalImagery` (refined variant) up to the
error boundary: if the activation loop fails, the body throws
`activationErrorMessage` before the timeline scan starts; otherwise the
scan runs over the probes. -/
def captureBodyRefined (visible : Nat → Bool) (probeDates : List (Option String)) :
    Except String (List (String × Nat)) :=
  if historyModeActivated visible then Except.ok (refinedScanRun probeDates)
  else Except.error activationErrorMessage

/-- What the caller of `captureHistoricalImagery` (refined variant)
observes: the body runs inside `try/catch`, and the catch handler logs
`ERROR: <message>` and takes a diagnostic screenshot but does not
rethrow, so the returned promise always resolves; the payload is the scan
result (if any) together with the logged error lines. -/
def runSessionRefined (visible : Nat → Bool) (probeDates : List (Option String)) :
    Except String (Option (List (String × Nat)) × List String) :=
  match captureBodyRefined visible probeDates with
  | Except.ok r => Except.ok (some r, [])
  | Except.error e => Except.ok (none, ["ERROR: " ++ e])

/-- Whether an `Except` result is a normal resolution. -/
def resolvesOk {ε α : Type} : Except ε α → Bool
  | Except.ok _ => true
  | Except.error _ => false

/-! ### Concrete scan inputs used by the end-to-end statements -/

/-- A probe whose full-page screenshot has `n` bytes and whose OCR found no
parseable date. -/
def demoProbe (n : Nat) : Probe :=
  { frameData := List.replicate n 0, ocrDate := none, ocrRaw := none }

/-- A 30-probe scan (the source's `numPoints`) whose frame sizes jump by
about ten percent exactly at scan indices 0, 3, 12 and 26, whose click
positions map to the estimated years 2015, 2016, 2019 and 2023. -/
def demoProbes : List Probe :=
  [demoProbe 110, demoProbe 110, demoProbe 110,
   demoProbe 121, demoProbe 121, demoProbe 121, demoProbe 121, demoProbe 121,
   demoProbe 121, demoProbe 121, demoProbe 121, demoProbe 121,
   demoProbe 133, demoProbe 133, demoProbe 133, demoProbe 133, demoProbe 133,
   demoProbe 133, demoProbe 133, demoProbe 133, demoProbe 133, demoProbe 133,
   demoProbe 133, demoProbe 133, demoProbe 133, demoProbe 133,
   demoProbe 146, demoProbe 146, demoProbe 146, demoProbe 146]

/-- An indexed probe sequence whose second probe throws a navigation
timeout; the first and third frames would each be flagged unique. -/
def demoErrProbes : List (Nat × Except String Probe) :=
  [(0, Except.ok (demoProbe 200)),
   (1, Except.error "Navigation timeout"),
   (2, Except.ok (demoProbe 300))]

/-! ### Helper lemmas -/

/-- The absolute rational difference of two lengths is the cast of the
truncated-subtraction distance. -/
theorem natDelta_cast (la lb : Nat) :
    |((lb : ℚ)) - ((la : ℚ))| = (((lb - la) + (la - lb) : ℕ) : ℚ) := by
  rcases le_total lb la with hle | hle
  · have h1 : ((lb : ℚ)) ≤ ((la : ℚ)) := by exact_mod_cast hle
    rw [abs_sub_comm, abs_of_nonneg (sub_nonneg.mpr h1),
      Nat.sub_eq_zero_of_le hle, Nat.zero_add, Nat.cast_sub hle]
  · have h1 : ((la : ℚ)) ≤ ((lb : ℚ)) := by exact_mod_cast hle
    rw [abs_of_nonneg (sub_nonneg.mpr h1),
      Nat.sub_eq_zero_of_le hle, Nat.add_zero, Nat.cast_sub hle]

/-- For a non-empty baseline the 0.5-percent decision is the integer
comparison `before.length < 200 * |before.length - after.length|`. -/
theorem compare_char (before after : List Nat) (h : before.length ≠ 0) :
    (compareScreenshots before after).hasSignificantChange
      = decide (before.length
          < 200 * ((before.length - after.length) + (after.length - before.length))) := by
  have hq : ((before.length : ℚ)) ≠ 0 := by exact_mod_cast h
  have hpos : (0 : ℚ) < ((before.length : ℚ)) := by
    exact_mod_cast Nat.pos_of_ne_zero h
  simp only [compareScreenshots, jsDiv, if_neg hq, JSNum.mul100, JSNum.gtQ,
    natDelta_cast after.length before.length]
  rw [decide_eq_decide]
  rw [gt_iff_lt, div_mul_eq_mul_div, lt_div_iff₀ hpos, ← Nat.cast_lt (α := ℚ)]
  push_cast
  constructor <;> intro hx <;> linarith

/-- For a non-empty baseline the 1-percent decision is the integer
comparison `before.length < 100 * |before.length - after.length|`. -/
theorem hasSig_char (before after : List Nat) (h : before.length ≠ 0) :
    hasSignificantChanges before after
      = decide (before.length
          < 100 * ((before.length - after.length) + (after.length - before.length))) := by
  have hq : ((before.length : ℚ)) ≠ 0 := by exact_mod_cast h
  have hpos : (0 : ℚ) < ((before.length : ℚ)) := by
    exact_mod_cast Nat.pos_of_ne_zero h
  simp only [hasSignificantChanges, jsDiv, if_neg hq, JSNum.mul100, JSNum.gtQ,
    natDelta_cast after.length before.length]
  rw [decide_eq_decide]
  rw [gt_iff_lt, div_mul_eq_mul_div, lt_div_iff₀ hpos, ← Nat.cast_lt (α := ℚ)]
  push_cast
  constructor <;> intro hx <;> linarith

/-- `scanStep` with the change decision rewritten through `compare_char`,
so that concrete scans evaluate by integer arithmetic. -/
theorem scanStep_eq (i : Nat) (pr : Probe) (s : ScanState) (h : s.baselineData.length ≠ 0) :
    scanStep i pr s =
      if s.baselineData.length <
          200 * ((s.baselineData.length - pr.frameData.length)
            + (pr.frameData.length - s.baselineData.length)) then
        { baselineData := pr.frameData
          capturedImages := s.capturedImages ++ [{
            position := i + 1
            pointX := round ((1100 : ℚ) + (i : ℚ) * (((1600 : ℚ) - 1100) / 30))
            estimatedYear := estimateYearFromPosition
              (round ((1100 : ℚ) + (i : ℚ) * (((1600 : ℚ) - 1100) / 30)))
            detectedDateText := pr.ocrRaw
            formattedDate := resolveLabel pr.ocrDate
              (estimateYearFromPosition (round ((1100 : ℚ) + (i : ℚ) * (((1600 : ℚ) - 1100) / 30))))
            frameData := pr.frameData
            percentDiff := (compareScreenshots s.baselineData pr.frameData).percentDiff }] }
      else s := by
  simp only [scanStep, compare_char _ _ h, decide_eq_true_eq]

/-- One scan step preserves the rolling-baseline invariant. -/
theorem scan_inv_step (b0 : List Nat) (i : Nat) (pr : Probe) (s : ScanState)
    (h : s.baselineData = lastUniqueBaseline b0 s.capturedImages) :
    (scanStep i pr s).baselineData
      = lastUniqueBaseline b0 (scanStep i pr s).capturedImages := by
  simp only [scanStep]
  split
  · simp [lastUniqueBaseline, List.getLast?_concat]
  · exact h

/-- The scan fold preserves the rolling-baseline invariant. -/
theorem scan_inv_fold (b0 : List Nat) (l : List (Nat × Probe)) :
    ∀ s : ScanState, s.baselineData = lastUniqueBaseline b0 s.capturedImages →
      (l.foldl (fun st ip => scanStep ip.1 ip.2 st) s).baselineData
        = lastUniqueBaseline b0
            (l.foldl (fun st ip => scanStep ip.1 ip.2 st) s).capturedImages := by
  induction l with
  | nil => intro s h; simpa using h
  | cons hd tl ih =>
    intro s h
    simp only [List.foldl_cons]
    exact ih _ (scan_inv_step b0 hd.1 hd.2 s h)

/-- `String.mk` of a cons cell is never the empty string. -/
theorem stringMk_cons_ne_empty (c : Char) (l : List Char) : String.mk (c :: l) ≠ "" := by
  intro h
  have h2 := congrArg String.data h
  simp at h2

/-! ### Claim theorems -/

/-- C1: For non-empty baselines, `compareScreenshots` flags a significant
change exactly when `|len(baseline) - len(candidate)| / len(baseline) * 100`
strictly exceeds 0.5, and `hasSignificantChanges` does so with threshold 1;
both are pure functions of the two byte buffers (they depend only on the
buffer lengths). -/
theorem change_detector_threshold (before after : List Nat) (h : before ≠ []) :
    ((compareScreenshots before after).hasSignificantChange
        = decide (|((before.length : ℚ)) - ((after.length : ℚ))| / ((before.length : ℚ)) * 100
            > 1 / 2))
    ∧ (hasSignificantChanges before after
        = decide (|((before.length : ℚ)) - ((after.length : ℚ))| / ((before.length : ℚ)) * 100
            > 1))
    ∧ (∀ before2 after2 : List Nat,
        before2.length = before.length → after2.length = after.length →
        compareScreenshots before2 after2 = compareScreenshots before after
        ∧ hasSignificantChanges before2 after2 = hasSignificantChanges before after) := by
  have hl : before.length ≠ 0 := by simpa [List.length_eq_zero] using h
  have hq : ((before.length : ℚ)) ≠ 0 := by exact_mod_cast hl
  refine ⟨?_, ?_, ?_⟩
  · simp only [compareScreenshots, jsDiv, if_neg hq, JSNum.mul100, JSNum.gtQ]
  · simp only [hasSignificantChanges, jsDiv, if_neg hq, JSNum.mul100, JSNum.gtQ]
  · intro before2 after2 h1 h2
    constructor
    · simp only [compareScreenshots, h1, h2]
    · simp only [hasSignificantChanges, h1, h2]

/-- C1 witness: the characterisation applied to concrete buffers of
lengths 2 and 3 (a 50 percent size difference, flagged by both variants). -/
theorem change_detector_threshold_checked :
    (compareScreenshots [0, 0] [0, 0, 0]).hasSignificantChange = true
    ∧ hasSignificantChanges [0, 0] [0, 0, 0] = true := by
  have h := change_detector_threshold [0, 0] [0, 0, 0] (by decide)
  constructor
  · rw [h.1, decide_eq_true_eq]
    norm_num
  · rw [h.2.1, decide_eq_true_eq]
    norm_num

/-- C2: For the fixed calibration `(400, 1600, 2002, 2024)`,
`estimateYearFromPosition` is exactly
`2002 + round((x - 400) / ((1600 - 400) / (2024 - 2002)))`, maps 400 to
2002 and 1600 to 2024, and is monotone non-decreasing. -/
theorem estimate_year_linear :
    (∀ x : ℤ, estimateYearFromPosition x
        = 2002 + round ((((x : ℚ)) - 400) / (((1600 : ℚ) - 400) / ((2024 : ℚ) - 2002))))
    ∧ estimateYearFromPosition 400 = 2002
    ∧ estimateYearFromPosition 1600 = 2024
    ∧ ∀ x y : ℤ, x ≤ y → estimateYearFromPosition x ≤ estimateYearFromPosition y := by
  refine ⟨?_, ?_, ?_, ?_⟩
  · intro x
    simp only [estimateYearFromPosition]
    norm_num
  · norm_num [estimateYearFromPosition, round_eq]
  · norm_num [estimateYearFromPosition, round_eq]
  · intro x y hxy
    have hxy2 : ((x : ℚ)) ≤ ((y : ℚ)) := by exact_mod_cast hxy
    simp only [estimateYearFromPosition]
    refine add_le_add_left ?_ 2002
    rw [round_eq, round_eq]
    apply Int.floor_le_floor
    have hD : (0 : ℚ) < ((1600 : ℚ) - 400) / (((2024 : ℤ) : ℚ) - ((2002 : ℤ) : ℚ)) := by
      norm_num
    gcongr

/-- C2 witness: the monotonicity clause applied at the calibration
endpoints. -/
theorem estimate_year_linear_checked :
    estimateYearFromPosition 400 ≤ estimateYearFromPosition 1600 :=
  estimate_year_linear.2.2.2 400 1600 (by decide)

/-- C3: Each step replaces the rolling baseline by the candidate frame
exactly when the change detector flags a significant change, and across a
whole scan the baseline always equals the frame of the most recently
captured unique image, or the initial full-page screenshot when none was
captured yet. -/
theorem rolling_baseline_invariant :
    (∀ (i : Nat) (pr : Probe) (s : ScanState),
      (scanStep i pr s).baselineData =
        if (compareScreenshots s.baselineData pr.frameData).hasSignificantChange
        then pr.frameData else s.baselineData)
    ∧ (∀ (b0 : List Nat) (probes : List Probe),
      (runScan ⟨b0, []⟩ probes).baselineData
        = lastUniqueBaseline b0 (runScan ⟨b0, []⟩ probes).capturedImages) := by
  constructor
  · intro i pr s
    simp only [scanStep]
    split <;> rfl
  · intro b0 probes
    exact scan_inv_fold b0 probes.enum ⟨b0, []⟩ (by simp [lastUniqueBaseline])

/-- C6 counterexample: the change decision is not symmetric — buffers of
lengths 199 and 200 are flagged with the shorter one as baseline but not
with the longer one (threshold 0.5), and likewise lengths 99 and 100 at
threshold 1. -/
theorem change_symmetry_counterexample :
    (compareScreenshots (List.replicate 199 0) (List.replicate 200 0)).hasSignificantChange = true
    ∧ (compareScreenshots (List.replicate 200 0) (List.replicate 199 0)).hasSignificantChange = false
    ∧ hasSignificantChanges (List.replicate 99 0) (List.replicate 100 0) = true
    ∧ hasSignificantChanges (List.replicate 100 0) (List.replicate 99 0) = false := by
  refine ⟨?_, ?_, ?_, ?_⟩
  · rw [compare_char _ _ (by norm_num)]
    norm_num
  · rw [compare_char _ _ (by norm_num)]
    norm_num
  · rw [hasSig_char _ _ (by norm_num)]
    norm_num
  · rw [hasSig_char _ _ (by norm_num)]
    norm_num

/-- C6 (amended): the change decision is symmetric for buffers of equal
length, and in general only the one-sided relation holds: with the shorter
buffer as baseline the detector flags whenever it flags with the longer
one as baseline. -/
theorem change_symmetry_amended (a b : List Nat) (ha : a ≠ []) (hb : b ≠ []) :
    (a.length = b.length →
      (compareScreenshots a b).hasSignificantChange
          = (compareScreenshots b a).hasSignificantChange
      ∧ hasSignificantChanges a b = hasSignificantChanges b a)
    ∧ (a.length ≤ b.length →
      ((compareScreenshots b a).hasSignificantChange = true →
        (compareScreenshots a b).hasSignificantChange = true)
      ∧ (hasSignificantChanges b a = true → hasSignificantChanges a b = true)) := by
  have hla : a.length ≠ 0 := by simpa [List.length_eq_zero] using ha
  have hlb : b.length ≠ 0 := by simpa [List.length_eq_zero] using hb
  constructor
  · intro hlen
    rw [compare_char _ _ hla, compare_char _ _ hlb, hasSig_char _ _ hla, hasSig_char _ _ hlb,
      hlen]
    exact ⟨rfl, rfl⟩
  · intro hle
    constructor
    · intro hflag
      rw [compare_char _ _ hlb, decide_eq_true_eq] at hflag
      rw [compare_char _ _ hla, decide_eq_true_eq]
      omega
    · intro hflag
      rw [hasSig_char _ _ hlb, decide_eq_true_eq] at hflag
      rw [hasSig_char _ _ hla, decide_eq_true_eq]
      omega

/-- C6 witness: the one-sided relation applied to buffers of lengths 1
and 2, flowing from the flagged longer-baseline comparison to the
shorter-baseline one. -/
theorem change_symmetry_amended_checked :
    (compareScreenshots [0] [0, 0]).hasSignificantChange = true :=
  ((change_symmetry_amended [0] [0, 0] (by decide) (by decide)).2 (by decide)).1
    (by rw [compare_char _ _ (by simp)]; decide)

/-- C10: With an empty baseline buffer the change detector still returns
(nothing throws; the division is modelled by `jsDiv`): the size quotient
is `NaN` when the candidate is also empty, so the comparison with the
threshold is `false`; with a non-empty candidate it is `Infinity`, so the
decision is `true` — for both threshold variants. -/
theorem empty_baseline_total :
    ((compareScreenshots ([] : List Nat) ([] : List Nat)).hasSignificantChange = false
      ∧ (compareScreenshots ([] : List Nat) ([] : List Nat)).percentDiff = JSNum.nan
      ∧ hasSignificantChanges ([] : List Nat) ([] : List Nat) = false)
    ∧ (∀ after : List Nat, after ≠ [] →
      (compareScreenshots [] after).hasSignificantChange = true
      ∧ (compareScreenshots [] after).percentDiff = JSNum.inf
      ∧ hasSignificantChanges [] after = true) := by
  constructor
  · refine ⟨?_, ?_, ?_⟩ <;>
      norm_num [compareScreenshots, hasSignificantChanges, jsDiv, JSNum.mul100, JSNum.gtQ]
  · intro after hne
    have hl : after.length ≠ 0 := by simpa [List.length_eq_zero] using hne
    have hq : (0 : ℚ) < ((after.length : ℚ)) := by exact_mod_cast Nat.pos_of_ne_zero hl
    have habs : |((([] : List Nat).length : ℚ)) - ((after.length : ℚ))| = ((after.length : ℚ)) := by
      simp [abs_of_nonpos, hq.le]
    refine ⟨?_, ?_, ?_⟩ <;>
      simp [compareScreenshots, hasSignificantChanges, jsDiv, JSNum.mul100, JSNum.gtQ,
        habs, hq, hq.ne.symm]

/-- C10 witness: the non-empty-candidate clause applied to the
one-byte candidate. -/
theorem empty_baseline_total_checked :
    (compareScreenshots [] [0]).hasSignificantChange = true
    ∧ (compareScreenshots [] [0]).percentDiff = JSNum.inf
    ∧ hasSignificantChanges [] [0] = true :=
  empty_baseline_total.2 [0] (by decide)

/-- The slash character is not a digit. -/
theorem slash_not_digit : ('/' : Char).isDigit = false := by decide

/-- A list of length four is an explicit four-element list. -/
theorem list_length_four (l : List Char) (h : l.length = 4) :
    ∃ a b c d, l = [a, b, c, d] := by
  rcases l with _ | ⟨a, _ | ⟨b, _ | ⟨c, _ | ⟨d, rest⟩⟩⟩⟩ <;> simp_all

/-- General slash-date normalization: `formatDateForFilename` turns any
`M/D/YYYY` or `MM/DD/YYYY` digit string into zero-padded `YYYY-MM-DD`. -/
theorem slash_normalization (m d y : List Char)
    (hm : m.length = 1 ∨ m.length = 2) (hd : d.length = 1 ∨ d.length = 2)
    (hy : y.length = 4)
    (hmd : ∀ c ∈ m, c.isDigit = true) (hdd : ∀ c ∈ d, c.isDigit = true)
    (hyd : ∀ c ∈ y, c.isDigit = true) :
    formatDateForFilename (String.mk (m ++ '/' :: (d ++ '/' :: y)))
      = String.mk (y ++ '-' :: (padStart2 m ++ '-' :: padStart2 d)) := by
  obtain ⟨y1, y2, y3, y4, rfl⟩ := list_length_four y hy
  have hy1 := hyd y1 (by simp)
  have hy2 := hyd y2 (by simp)
  have hy3 := hyd y3 (by simp)
  have hy4 := hyd y4 (by simp)
  rcases hm with hm1 | hm2
  · obtain ⟨a, rfl⟩ := List.length_eq_one.mp hm1
    have ha := hmd a (by simp)
    rcases hd with hd1 | hd2
    · obtain ⟨b, rfl⟩ := List.length_eq_one.mp hd1
      have hb := hdd b (by simp)
      rw [formatDateForFilename, if_neg (by simp [stringMk_cons_ne_empty])]
      simp [formatDateCore, searchSlash, matchSlashAt, digits12, digits4, List.findSome?,
        ha, hb, hy1, hy2, hy3, hy4, slash_not_digit]
    · obtain ⟨b, c, rfl⟩ := List.length_eq_two.mp hd2
      have hb := hdd b (by simp)
      have hc := hdd c (by simp)
      rw [formatDateForFilename, if_neg (by simp [stringMk_cons_ne_empty])]
      simp [formatDateCore, searchSlash, matchSlashAt, digits12, digits4, List.findSome?,
        ha, hb, hc, hy1, hy2, hy3, hy4, slash_not_digit]
  · obtain ⟨a, a2, rfl⟩ := List.length_eq_two.mp hm2
    have ha := hmd a (by simp)
    have ha2 := hmd a2 (by simp)
    rcases hd with hd1 | hd2
    · obtain ⟨b, rfl⟩ := List.length_eq_one.mp hd1
      have hb := hdd b (by simp)
      rw [formatDateForFilename, if_neg (by simp [stringMk_cons_ne_empty])]
      simp [formatDateCore, searchSlash, matchSlashAt, digits12, digits4, List.findSome?,
        ha, ha2, hb, hy1, hy2, hy3, hy4, slash_not_digit]
    · obtain ⟨b, c, rfl⟩ := List.length_eq_two.mp hd2
      have hb := hdd b (by simp)
      have hc := hdd c (by simp)
      rw [formatDateForFilename, if_neg (by simp [stringMk_cons_ne_empty])]
      simp [formatDateCore, searchSlash, matchSlashAt, digits12, digits4, List.findSome?,
        ha, ha2, hb, hc, hy1, hy2, hy3, hy4, slash_not_digit]

/-- A list with a cons cell in the middle makes a non-empty string. -/
theorem stringMk_append_cons_ne_empty (m : List Char) (c : Char) (r : List Char) :
    String.mk (m ++ c :: r) ≠ "" := by
  intro h
  have h2 := congrArg String.data h
  simp at h2

/-- The month-name pattern of `extractDateFromImage` never matches an
empty substring. -/
theorem matchMonthPatAt_ne_nil (l s : List Char) (h : matchMonthPatAt l = some s) :
    s ≠ [] := by
  match l, h with
  | [], h => simp [matchMonthPatAt] at h
  | [c1], h => simp [matchMonthPatAt] at h
  | [c1, c2], h => simp [matchMonthPatAt] at h
  | c1 :: c2 :: c3 :: r, h =>
    rcases hmb : monthAbbrev3 c1 c2 c3 with _ | _
    · simp [matchMonthPatAt, hmb] at h
    · rcases r with _ | ⟨k1, r2⟩
      · simp [matchMonthPatAt, hmb] at h
      · rcases hsp : spaceOrComma k1 with _ | _
        · simp [matchMonthPatAt, hmb, hsp] at h
        · simp only [matchMonthPatAt, hmb, hsp, if_true] at h
          obtain ⟨cand, hmem, hf⟩ := List.exists_of_findSome?_eq_some h
          rcases hc2 : cand.2 with _ | ⟨k2, r5⟩ <;> rw [hc2] at hf
          · simp at hf
          · rcases hsp2 : spaceOrComma k2 with _ | _
            · simp [hsp2] at hf
            · rcases hd4 : digits4 (r5.dropWhile spaceOrComma) with _ | y <;>
                simp [hsp2, hd4] at hf
              subst hf
              simp

/-- Leftmost month-name search never returns an empty substring. -/
theorem searchMonthPat_ne_nil (l s : List Char) (h : searchMonthPat l = some s) :
    s ≠ [] := by
  induction l with
  | nil => simp [searchMonthPat] at h
  | cons c rest ih =>
    simp only [searchMonthPat] at h
    cases hm : matchMonthPatAt (c :: rest) with
    | some r =>
      rw [hm] at h
      simp only [Option.some.injEq] at h
      subst h
      exact matchMonthPatAt_ne_nil _ _ hm
    | none =>
      rw [hm] at h
      exact ih h

/-- A date recognised by `extractDateFromText` is never the empty string. -/
theorem extractDateFromText_ne_empty (text d : String)
    (h : extractDateFromText text = some d) : d ≠ "" := by
  unfold extractDateFromText at h
  cases h1 : searchOlder text.data with
  | some t =>
    obtain ⟨m, dd, y⟩ := t
    rw [h1] at h
    simp only [Option.some.injEq] at h
    subst h
    exact stringMk_append_cons_ne_empty m '/' _
  | none =>
    rw [h1] at h
    cases h2 : searchSlash text.data with
    | some t =>
      obtain ⟨m, dd, y⟩ := t
      rw [h2] at h
      simp only [Option.some.injEq] at h
      subst h
      exact stringMk_append_cons_ne_empty m '/' _
    | none =>
      rw [h2] at h
      cases h3 : searchMonthPat text.data with
      | some s =>
        rw [h3] at h
        simp only [Option.some.injEq] at h
        subst h
        intro hcon
        have h4 := congrArg String.data hcon
        simp only [String.data] at h4
        exact searchMonthPat_ne_nil _ _ h3 (by simpa using h4)
      | none =>
        rw [h3] at h
        exact absurd h (by simp)

/-- C4: `formatDateForFilename` normalizes every one-or-two-digit
`MM/DD/YYYY` string to zero-padded `YYYY-MM-DD`; in particular
`3/20/2016` becomes `2016-03-20`, and the three-letter-month string
`Jan 19, 2024` becomes `2024-01-19`; and when OCR yields no parseable
date, the canonical label is `est_` followed by the estimated year. -/
theorem date_canonicalization :
    (∀ (m d y : List Char),
      (m.length = 1 ∨ m.length = 2) → (d.length = 1 ∨ d.length = 2) → y.length = 4 →
      (∀ c ∈ m, c.isDigit = true) → (∀ c ∈ d, c.isDigit = true) → (∀ c ∈ y, c.isDigit = true) →
      formatDateForFilename (String.mk (m ++ '/' :: (d ++ '/' :: y)))
        = String.mk (y ++ '-' :: (padStart2 m ++ '-' :: padStart2 d)))
    ∧ formatDateForFilename "3/20/2016" = "2016-03-20"
    ∧ formatDateForFilename "Jan 19, 2024" = "2024-01-19"
    ∧ (∀ estimatedYear : ℤ,
        resolveLabel none estimatedYear = "est_" ++ toString estimatedYear) := by
  exact ⟨slash_normalization, by decide, by decide, fun y => rfl⟩

/-- C4 witness: the general normalization applied to the digits of
`3/20/2016`. -/
theorem date_canonicalization_checked :
    formatDateForFilename (String.mk (['3'] ++ '/' :: (['2', '0'] ++ '/' :: ['2', '0', '1', '6'])))
      = String.mk (['2', '0', '1', '6'] ++ '-' :: (padStart2 ['3'] ++ '-' :: padStart2 ['2', '0'])) :=
  date_canonicalization.1 ['3'] ['2', '0'] ['2', '0', '1', '6'] (Or.inl rfl) (Or.inr rfl) rfl
    (by decide) (by decide) (by decide)

/-- C5: Whenever OCR extraction yields a date, the canonical label is the
OCR-derived formatted date — it does not depend on the positional
estimate — and the positional label `est_{year}` is produced exactly in
the no-date case. -/
theorem ocr_precedence :
    (∀ (text d : String), extractDateFromText text = some d →
      ∀ y1 y2 : ℤ,
        resolveLabel (some d) y1 = formatDateForFilename d
        ∧ resolveLabel (some d) y1 = resolveLabel (some d) y2)
    ∧ (∀ y : ℤ, resolveLabel none y = "est_" ++ toString y) := by
  constructor
  · intro text d h y1 y2
    have hne : d ≠ "" := extractDateFromText_ne_empty text d h
    exact ⟨by simp [resolveLabel, hne], by simp [resolveLabel, hne]⟩
  · intro y
    rfl

/-- C5 witness: the precedence rule applied to the OCR text `3/20/2016`
with two different positional estimates. -/
theorem ocr_precedence_checked :
    resolveLabel (some "3/20/2016") 2019 = formatDateForFilename "3/20/2016"
    ∧ resolveLabel (some "3/20/2016") 2019 = resolveLabel (some "3/20/2016") 2023 :=
  ocr_precedence.1 "3/20/2016" "3/20/2016" (by decide) 2019 2023

/-- C7 counterexample: with the second probe throwing a navigation
timeout, the scan aborts — the third position, which would have been a
unique frame, is never sampled (only position 1 is captured) and no
metadata is produced, contradicting the claim that sampling continues at
positions `i+1..numPoints`. -/
theorem probe_failure_counterexample :
    (runScanE ⟨List.replicate 100 0, []⟩ demoErrProbes).isAborted = true
    ∧ ((runScanE ⟨List.replicate 100 0, []⟩ demoErrProbes).state.capturedImages.map
        (fun c => c.position)) = [1]
    ∧ sessionMetadata (runScanE ⟨List.replicate 100 0, []⟩ demoErrProbes) = none := by
  norm_num [runScanE, demoErrProbes, demoProbe, scanStep_eq, ScanOutcome.isAborted,
    ScanOutcome.state, sessionMetadata, List.map]

/-- C7 (amended): a probe that throws at position `i` aborts the scan
loop: the probes before `i` are processed normally, every position after
`i` is left unsampled, the error propagates to the session-level catch
handler, and no metadata record is produced for the session. -/
theorem probe_failure_amended :
    (∀ (s : ScanState) (e : String) (pre : List (Nat × Probe)) (j : Nat)
      (post : List (Nat × Except String Probe)),
      runScanE s (pre.map (fun q => (q.1, Except.ok q.2)) ++ (j, Except.error e) :: post)
        = ScanOutcome.aborted (pre.foldl (fun st ip => scanStep ip.1 ip.2 st) s) e)
    ∧ (∀ (s : ScanState) (e : String), sessionMetadata (ScanOutcome.aborted s e) = none) := by
  constructor
  · intro s e pre j post
    induction pre generalizing s with
    | nil => simp [runScanE]
    | cons hd tl ih =>
      simp only [List.map_cons, List.cons_append, runScanE, List.foldl_cons]
      exact ih (scanStep hd.1 hd.2 s)
  · intro s e
    rfl

/-- `actualYearRangeOf` of a non-empty capture list is first-to-last in
list order. -/
theorem actualYearRangeOf_head_getLast (l : List Captured) (h : l ≠ []) :
    actualYearRangeOf l
      = (l.head h).formattedDate ++ " to " ++ (l.getLast h).formattedDate := by
  match l, h with
  | c :: cs, h =>
    rw [List.getLast_eq_getLastD]
    rfl

/-- C8: For every scan with at least one unique sample, the reported
`actualYearRange` is the canonical label of the first captured sample,
`" to "`, then the label of the last captured sample, in scan order; the
concrete 30-point scan whose unique samples fall at estimated years
2015, 2016, 2019 and 2023 (no OCR dates) reports
`est_2015 to est_2023` and a gallery with those four entries in scan
order. -/
theorem session_range_scan_order :
    (∀ (b0 : List Nat) (probes : List Probe)
      (h : (runScan ⟨b0, []⟩ probes).capturedImages ≠ []),
      (metadataOf (runScan ⟨b0, []⟩ probes)).actualYearRange
        = ((runScan ⟨b0, []⟩ probes).capturedImages.head h).formattedDate ++ " to "
          ++ ((runScan ⟨b0, []⟩ probes).capturedImages.getLast h).formattedDate)
    ∧ (metadataOf (runScan ⟨List.replicate 100 0, []⟩ demoProbes)).actualYearRange
        = "est_2015 to est_2023"
    ∧ galleryEntries ((runScan ⟨List.replicate 100 0, []⟩ demoProbes).capturedImages)
        = ["est_2015", "est_2016", "est_2019", "est_2023"] := by
  refine ⟨?_, ?_, ?_⟩
  · intro b0 probes h
    exact actualYearRangeOf_head_getLast _ h
  · norm_num [runScan, demoProbes, demoProbe, List.enum, List.enumFrom, scanStep_eq,
      metadataOf, actualYearRangeOf, List.getLastD, resolveLabel,
      estimateYearFromPosition, round_eq]
    decide
  · norm_num [runScan, demoProbes, demoProbe, List.enum, List.enumFrom, scanStep_eq,
      galleryEntries, resolveLabel, estimateYearFromPosition, round_eq]
    decide

/-- C8 witness: the scan-order range applied to a one-probe scan that
captures its only frame. -/
theorem session_range_scan_order_checked :
    (metadataOf (runScan ⟨[0], []⟩ [demoProbe 2])).actualYearRange
      = (((runScan ⟨[0], []⟩ [demoProbe 2]).capturedImages.head (by
          norm_num [runScan, demoProbe, List.enum, List.enumFrom, scanStep_eq])).formattedDate)
        ++ " to "
        ++ (((runScan ⟨[0], []⟩ [demoProbe 2]).capturedImages.getLast (by
          norm_num [runScan, demoProbe, List.enum, List.enumFrom, scanStep_eq])).formattedDate) :=
  session_range_scan_order.1 [0] [demoProbe 2] (by
    norm_num [runScan, demoProbe, List.enum, List.enumFrom, scanStep_eq])

/-- C9 counterexample: when the toggle never engages, the body does throw
the descriptive error before scanning, but the session-level catch
swallows it — the caller observes a normally resolved session whose only
trace of the failure is the logged `ERROR:` line, so the error is not
surfaced to the caller as claimed. -/
theorem activation_error_counterexample :
    captureBodyRefined (fun _ => false) [some "3/20/2016"] = Except.error activationErrorMessage
    ∧ runSessionRefined (fun _ => false) [some "3/20/2016"]
        = Except.ok (none, ["ERROR: " ++ activationErrorMessage])
    ∧ resolvesOk (runSessionRefined (fun _ => false) [some "3/20/2016"]) = true := by
  exact ⟨rfl, rfl, rfl⟩

/-- C9 (amended): if the historical-imagery toggle does not engage on any
of the `MAX_RETRIES = 3` attempts, the session body raises the
descriptive activation error before any timeline scanning begins; the
session-level catch handler logs it and resolves normally, so the caller
never observes a raised error from the session. -/
theorem activation_error_amended :
    (∀ (visible : Nat → Bool) (probeDates : List (Option String)),
      (∀ k, k < MAX_RETRIES → visible k = false) →
      captureBodyRefined visible probeDates = Except.error activationErrorMessage
      ∧ runSessionRefined visible probeDates
          = Except.ok (none, ["ERROR: " ++ activationErrorMessage]))
    ∧ (∀ (visible : Nat → Bool) (probeDates : List (Option String)),
      resolvesOk (runSessionRefined visible probeDates) = true) := by
  constructor
  · intro visible probeDates h
    have hact : historyModeActivated visible = false := by
      simp [historyModeActivated, MAX_RETRIES, activationLoop,
        h 0 (by decide), h 1 (by decide), h 2 (by decide)]
    constructor
    · simp [captureBodyRefined, hact]
    · simp [runSessionRefined, captureBodyRefined, hact]
  · intro visible probeDates
    cases hb : captureBodyRefined visible probeDates <;>
      simp [runSessionRefined, hb, resolvesOk]

/-- C9 witness: the amended statement applied to a page where the toggle
never engages. -/
theorem activation_error_amended_checked :
    captureBodyRefined (fun _ => false) [] = Except.error activationErrorMessage :=
  (activation_error_amended.1 (fun _ => false) [] (fun _ _ => rfl)).1
